import Mathlib

/-!
# Verification of the grimm perception core

A shallow embedding of the repository's two streaming detectors and the
emulated audio channel, with theorems checking the specification's claims
against the code.

* `VoiceActivityDetector` (the spec's SpeechSegmenter), from
  `src/vad/index.ts`.  The `avr-vad` engine is an external dependency: its
  per-frame output (the probability handed to `onFrameProcessed`, and
  whether the engine fires `onSpeechStart` / `onVADMisfire` for the frame)
  is a parameter of each frame (`FrameInput`), while the repository's own
  callback bodies are embedded faithfully.  `Date.now()` timestamps are
  explicit `now` inputs (rationals, milliseconds).
* `WakeWordDetector` (the spec's TriggerSpotter), from
  `src/wake-word/index.ts`.  The three ONNX sessions are opaque oracles;
  the tensor packing that feeds them is absorbed into the oracle boundary,
  the buffering and threshold logic around them is embedded from the code.
* `EmulatedChannel` (the spec's ScriptedSource), from
  `src/audio/emulated-channel.ts`.

Samples are integers (Int16 values), probabilities, thresholds and
durations are rationals.
-/

/-- VAD result status: the source's `"continue" | "end" | "timeout"`. -/
inductive VADStatus where
  | cont
  | ended
  | timeout
deriving Repr, DecidableEq

/-- The `VADError` thrown by `src/vad/index.ts` (message only). -/
structure VADError where
  message : String
deriving Repr, DecidableEq

/-- `VoiceActivityDetectorOptions`: every field optional, defaults applied
in the constructor. -/
structure VADOptions where
  speechThreshold : Option ℚ := none
  silenceThreshold : Option ℚ := none
  silenceDuration : Option ℚ := none
  maxRecordingDuration : Option ℚ := none
  minSpeechDuration : Option ℚ := none
deriving Repr, DecidableEq

/-- The resolved configuration a constructed detector carries. -/
structure VADConfig where
  speechThreshold : ℚ
  silenceThreshold : ℚ
  silenceDuration : ℚ
  maxRecordingDuration : ℚ
  minSpeechDuration : ℚ
deriving Repr, DecidableEq

namespace VoiceActivityDetector

/-- Default application of the constructor (source lines 120-125):
`?? 0.5`, `?? 0.35`, `?? 700`, `?? 30000`, `?? 200`. -/
def resolveOptions (o : VADOptions) : VADConfig where
  speechThreshold := o.speechThreshold.getD (1/2)
  silenceThreshold := o.silenceThreshold.getD (7/20)
  silenceDuration := o.silenceDuration.getD 700
  maxRecordingDuration := o.maxRecordingDuration.getD 30000
  minSpeechDuration := o.minSpeechDuration.getD 200

/-- The private constructor's validation (source lines 127-140).  Note the
source checks the two thresholds, `silenceDuration` and
`maxRecordingDuration`, and does not check `minSpeechDuration`. -/
def construct (o : VADOptions) : Except VADError VADConfig :=
  let cfg := resolveOptions o
  if cfg.speechThreshold < 0 ∨ cfg.speechThreshold > 1 then
    .error ⟨"Speech threshold must be between 0.0 and 1.0"⟩
  else if cfg.silenceThreshold < 0 ∨ cfg.silenceThreshold > 1 then
    .error ⟨"Silence threshold must be between 0.0 and 1.0"⟩
  else if cfg.silenceDuration < 0 then
    .error ⟨"Silence duration must be non-negative"⟩
  else if cfg.maxRecordingDuration < 0 then
    .error ⟨"Max recording duration must be non-negative"⟩
  else
    .ok cfg

/-- Mutable state of a `VoiceActivityDetector` instance.  `engineLoaded`
models `this.vad !== null`, `ready` models `isInitialized`. -/
structure State where
  audioBuffer : List (List ℤ)
  silenceStartTime : Option ℚ
  recordingStartTime : Option ℚ
  hasDetectedSpeech : Bool
  speechStartTime : Option ℚ
  engineLoaded : Bool
  isReleased : Bool
  ready : Bool
  lastProbability : ℚ
  lastIsSpeech : Bool
deriving Repr, DecidableEq

/-- State right after `create()` succeeds. -/
def initState : State where
  audioBuffer := []
  silenceStartTime := none
  recordingStartTime := none
  hasDetectedSpeech := false
  speechStartTime := none
  engineLoaded := true
  isReleased := false
  ready := true
  lastProbability := 0
  lastIsSpeech := false

/-- One frame as handed to `processFrame`, together with what the opaque
`avr-vad` engine reports for it through the repository's callbacks:
`prob` is the value `onFrameProcessed` receives, `speechStart` / `misfire`
say whether the engine fires `onSpeechStart` / `onVADMisfire` while
`processAudio` runs on this frame. -/
structure FrameInput where
  frame : List ℤ
  now : ℚ
  prob : ℚ
  speechStart : Bool
  misfire : Bool
deriving Repr, DecidableEq

/-- The repository's callback bodies (source lines 172-191), applied for
the engine events of one frame.  The callback's own `Date.now()` is
identified with the frame's `now`. -/
def applyEngineCallbacks (cfg : VADConfig) (i : FrameInput) (s : State) : State :=
  let s1 := { s with
    lastProbability := i.prob
    lastIsSpeech := decide (i.prob > cfg.speechThreshold) }
  let s2 :=
    if i.speechStart then
      { s1 with
        hasDetectedSpeech := true
        speechStartTime := some i.now
        silenceStartTime := none }
    else s1
  if i.misfire then
    { s2 with hasDetectedSpeech := false, speechStartTime := none }
  else s2

/-- The first half of `processFrame` (source lines 218-238): stamp the
recording start, buffer the frame, run the engine (whose callbacks update
the state). -/
def ingest (cfg : VADConfig) (s : State) (i : FrameInput) : State :=
  let s0 := match s.recordingStartTime with
    | none => { s with recordingStartTime := some i.now }
    | some _ => s
  let s1 := { s0 with audioBuffer := s0.audioBuffer ++ [i.frame] }
  applyEngineCallbacks cfg i s1

/-- The state-clearing effect of `reset()` (source lines 334-348); the
engine session survives (`vad.reset()` keeps it loaded). -/
def clearState (s : State) : State :=
  { s with
    audioBuffer := []
    silenceStartTime := none
    recordingStartTime := none
    hasDetectedSpeech := false
    speechStartTime := none
    lastProbability := 0
    lastIsSpeech := false }

/-- `getBufferedAudio` (source lines 317-329): concatenation of all
buffered frames. -/
def getBufferedAudio (s : State) : List ℤ := s.audioBuffer.flatten

/-- `VADResult`. -/
structure Result where
  status : VADStatus
  probability : ℚ
  isSpeech : Bool
  audioData : Option (List ℤ)
deriving Repr, DecidableEq

/-- The second half of `processFrame` (source lines 237-312), run on the
post-`ingest` state: max-duration check, speech bookkeeping, silence timer,
end-of-speech decision. -/
def classify (cfg : VADConfig) (s : State) (i : FrameInput) : Result × State :=
  let probability := s.lastProbability
  let isSpeech := s.lastIsSpeech
  let t0 := s.recordingStartTime.getD i.now
  if i.now - t0 > cfg.maxRecordingDuration then
    (⟨.timeout, probability, isSpeech, some (getBufferedAudio s)⟩, clearState s)
  else
    let s3 := if isSpeech && !s.hasDetectedSpeech then
        { s with
          hasDetectedSpeech := true
          speechStartTime := some i.now
          silenceStartTime := none }
      else s
    if isSpeech then
      (⟨.cont, probability, isSpeech, none⟩, { s3 with silenceStartTime := none })
    else if !s3.hasDetectedSpeech then
      (⟨.cont, probability, isSpeech, none⟩, s3)
    else
      let speechDuration := match s3.speechStartTime with
        | some t => i.now - t
        | none => 0
      if speechDuration < cfg.minSpeechDuration then
        (⟨.cont, probability, isSpeech, none⟩, s3)
      else
        let s4 := match s3.silenceStartTime with
          | none => { s3 with silenceStartTime := some i.now }
          | some _ => s3
        let sil := s4.silenceStartTime.getD i.now
        if i.now - sil > cfg.silenceDuration then
          (⟨.ended, probability, isSpeech, some (getBufferedAudio s4)⟩,
            clearState s4)
        else
          (⟨.cont, probability, isSpeech, none⟩, s4)

/-- `processFrame` (source lines 209-312). -/
def processFrame (cfg : VADConfig) (s : State) (i : FrameInput) :
    Except VADError (Result × State) :=
  if s.isReleased then .error ⟨"VAD has been released"⟩
  else if !s.ready || !s.engineLoaded then .error ⟨"VAD not initialized"⟩
  else .ok (classify cfg (ingest cfg s i) i)

/-- Feed a sequence of frames, collecting the results; `none` if any call
throws. -/
def processTrace (cfg : VADConfig) (s : State) :
    List FrameInput → Option (List Result × State)
  | [] => some ([], s)
  | i :: rest =>
    (processFrame cfg s i).toOption.bind (fun p =>
      (processTrace cfg p.2 rest).map (fun q => (p.1 :: q.1, q.2)))

/-- `release()` (source lines 394-408). -/
def release (s : State) : State :=
  if s.isReleased then s
  else
    { s with
      engineLoaded := false
      audioBuffer := []
      isReleased := true
      ready := false }
end VoiceActivityDetector

/-! ## WakeWordDetector (`src/wake-word/index.ts`) -/

/-- The wake-word error taxonomy: `WakeWordError` and its subclass
`WakeWordModelError`. -/
inductive WakeWordFailure where
  | wakeWordError (message : String)
  | wakeWordModelError (message : String)
deriving Repr, DecidableEq

/-- `WakeWordDetectorOptions`. -/
structure WakeWordDetectorOptions where
  modelPath : Option String := none
  wakeWord : Option String := none
  sensitivity : Option ℚ := none
deriving Repr, DecidableEq

/-- Constants from the source: frame length 1280 samples (80 ms at 16 kHz),
the embedding model needs 76 mel frames, the mel window slides by 8, the
wake-word model consumes 16 embeddings. -/
def FRAME_LENGTH : ℕ := 1280

/-- `MEL_BUFFER_SIZE`. -/
def MEL_BUFFER_SIZE : ℕ := 76

/-- `EMBEDDING_WINDOW_SLIDE`. -/
def EMBEDDING_WINDOW_SLIDE : ℕ := 8

/-- The resolved configuration a constructed detector carries. -/
structure WakeWordConfig where
  modelPath : String
  wakeWord : String
  sensitivity : ℚ
deriving Repr, DecidableEq

namespace WakeWordDetector

/-- The private constructor (source lines 377-385): defaults, then the
sensitivity range check.  `cwd` stands for `process.cwd()`. -/
def construct (cwd : String) (o : WakeWordDetectorOptions) :
    Except WakeWordFailure WakeWordConfig :=
  let cfg : WakeWordConfig :=
    { modelPath := o.modelPath.getD (cwd ++ "/models")
      wakeWord := o.wakeWord.getD "hey_jarvis"
      sensitivity := o.sensitivity.getD (1/2) }
  if cfg.sensitivity < 0 ∨ cfg.sensitivity > 1 then
    .error (.wakeWordError "Sensitivity must be between 0.0 and 1.0")
  else .ok cfg

/-- External actions `create` can perform against the file system and the
ONNX runtime, in order. -/
inductive ExtAction where
  | checkExists (path : String)
  | createSession (path : String)
deriving Repr, DecidableEq

/-- The environment the loader runs against: which files exist and which
session creations succeed. -/
structure Env where
  fileExists : String → Bool
  sessionLoads : String → Bool

/-- The `initialize()` method (session loading): three existence checks,
then three `InferenceSession.create` calls, first failure aborting.
Returns the outcome together with the log of external actions performed. -/
def loadModels (env : Env) (cfg : WakeWordConfig) :
    Except WakeWordFailure Unit × List ExtAction :=
  let melPath := cfg.modelPath ++ "/melspectrogram.onnx"
  let embeddingPath := cfg.modelPath ++ "/embedding_model.onnx"
  let wakeWordPath := cfg.modelPath ++ "/" ++ cfg.wakeWord ++ "_v0.1.onnx"
  if !env.fileExists melPath then
    (.error (.wakeWordModelError ("Melspectrogram model not found at " ++ melPath)),
      [.checkExists melPath])
  else if !env.fileExists embeddingPath then
    (.error (.wakeWordModelError ("Embedding model not found at " ++ embeddingPath)),
      [.checkExists melPath, .checkExists embeddingPath])
  else if !env.fileExists wakeWordPath then
    (.error (.wakeWordModelError ("Wake word model not found at " ++ wakeWordPath)),
      [.checkExists melPath, .checkExists embeddingPath, .checkExists wakeWordPath])
  else if !env.sessionLoads melPath then
    (.error (.wakeWordModelError "Failed to initialize ONNX models"),
      [.checkExists melPath, .checkExists embeddingPath, .checkExists wakeWordPath,
        .createSession melPath])
  else if !env.sessionLoads embeddingPath then
    (.error (.wakeWordModelError "Failed to initialize ONNX models"),
      [.checkExists melPath, .checkExists embeddingPath, .checkExists wakeWordPath,
        .createSession melPath, .createSession embeddingPath])
  else if !env.sessionLoads wakeWordPath then
    (.error (.wakeWordModelError "Failed to initialize ONNX models"),
      [.checkExists melPath, .checkExists embeddingPath, .checkExists wakeWordPath,
        .createSession melPath, .createSession embeddingPath,
        .createSession wakeWordPath])
  else
    (.ok (),
      [.checkExists melPath, .checkExists embeddingPath, .checkExists wakeWordPath,
        .createSession melPath, .createSession embeddingPath,
        .createSession wakeWordPath])

/-- `WakeWordDetector.create` (source lines 394-400): construct (validating
the sensitivity), then load the models.  The action log is empty exactly
when nothing external was touched. -/
def create (env : Env) (cwd : String) (o : WakeWordDetectorOptions) :
    Except WakeWordFailure WakeWordConfig × List ExtAction :=
  match construct cwd o with
  | .error e => (.error e, [])
  | .ok cfg =>
    match loadModels env cfg with
    | (.error e, as) => (.error e, as)
    | (.ok _, as) => (.ok cfg, as)

/-- Mutable state of a `WakeWordDetector` instance.  The three `*Loaded`
flags model the nullable session handles, `ready` models `isInitialized`. -/
structure State where
  melBuffer : List (List ℚ)
  embeddingBuffer : List (List ℚ)
  isReleased : Bool
  ready : Bool
  melLoaded : Bool
  embeddingLoaded : Bool
  wakeWordLoaded : Bool
deriving Repr, DecidableEq

/-- State right after `create()` succeeds. -/
def initState : State where
  melBuffer := []
  embeddingBuffer := []
  isReleased := false
  ready := true
  melLoaded := true
  embeddingLoaded := true
  wakeWordLoaded := true

/-- The three ONNX sessions as opaque oracles.  `melStage` is the raw
output tensor data of the melspectrogram model on the normalized audio;
`embedStage` is the embedding model applied to a 76-frame mel window (the
flattening into a `[1,76,32,1]` tensor is absorbed into the oracle);
`scoreStage` is the wake-word model applied to the stacked last-16
embeddings, returning the final score of its output. -/
structure Oracles where
  melStage : List ℚ → List ℚ
  embedStage : List (List ℚ) → List ℚ
  scoreStage : List (List ℚ) → ℚ

/-- `computeMelspectrogram` (source lines 520-553): run the mel model,
apply `v / 10 + 2`, split into frames of 32 mel bins. -/
def computeMelspectrogram (o : Oracles) (audioFloat : List ℚ) : List (List ℚ) :=
  let melData := o.melStage audioFloat
  let transformedMel := melData.map (fun v => v / 10 + 2)
  let melBins := 32
  let numFrames := transformedMel.length / melBins
  (List.range numFrames).map
    (fun i => (transformedMel.drop (i * melBins)).take melBins)

/-- The `while (melBuffer.length >= MEL_BUFFER_SIZE)` loop of
`processFrame` (source lines 488-494): one embedding per iteration over
the first 76 mel frames, then the mel buffer slides by 8. -/
def slideLoop (o : Oracles) (mel emb : List (List ℚ)) :
    List (List ℚ) × List (List ℚ) :=
  if h : MEL_BUFFER_SIZE ≤ mel.length then
    slideLoop o (mel.drop EMBEDDING_WINDOW_SLIDE)
      (emb ++ [o.embedStage (mel.take MEL_BUFFER_SIZE)])
  else (mel, emb)
termination_by mel.length
decreasing_by
  simp only [List.length_drop]
  simp only [MEL_BUFFER_SIZE, EMBEDDING_WINDOW_SLIDE] at *
  omega

/-- `slice(-16)`: the last `n` entries of a list. -/
def lastN (n : ℕ) (l : List (List ℚ)) : List (List ℚ) :=
  l.drop (l.length - n)

/-- `processFrame` (source lines 462-515). -/
def processFrame (o : Oracles) (cfg : WakeWordConfig) (s : State)
    (frame : List ℤ) : Except WakeWordFailure (Bool × State) :=
  if s.isReleased then .error (.wakeWordError "Detector has been released")
  else if !s.ready then .error (.wakeWordError "Detector not initialized")
  else if frame.length ≠ FRAME_LENGTH then
    .error (.wakeWordError "Invalid frame length")
  else
    let audioFloat := frame.map (fun v => (v : ℚ) / 32768)
    let melFrames := computeMelspectrogram o audioFloat
    let p := slideLoop o (s.melBuffer ++ melFrames) s.embeddingBuffer
    if 16 ≤ p.2.length then
      let score := o.scoreStage (lastN 16 p.2)
      let emb2 := p.2.drop 1
      if score > cfg.sensitivity then
        .ok (true, { s with melBuffer := [], embeddingBuffer := [] })
      else
        .ok (false, { s with melBuffer := p.1, embeddingBuffer := emb2 })
    else
      .ok (false, { s with melBuffer := p.1, embeddingBuffer := p.2 })

/-- `release()` (source lines 658-678). -/
def release (s : State) : State :=
  if s.isReleased then s
  else
    { s with
      melLoaded := false
      embeddingLoaded := false
      wakeWordLoaded := false
      melBuffer := []
      embeddingBuffer := []
      isReleased := true
      ready := false }

end WakeWordDetector

/-! ## EmulatedChannel (`src/audio/emulated-channel.ts`) -/

namespace EmulatedChannel

/-- Observable state of an `EmulatedChannel`.  `hasCallback` models
whether `frameCallback` is non-null. -/
structure State where
  audioBuffer : List ℤ
  hasCallback : Bool
  running : Bool
  released : Bool
  position : ℕ
  frameLength : ℕ
  sampleRate : ℕ
  realtime : Bool
deriving Repr, DecidableEq

/-- `stop()` (source lines 244-246). -/
def stop (s : State) : State := { s with running := false }

/-- `release()` (source lines 292-301): early return when already
released, otherwise stop, drop buffer and callback. -/
def release (s : State) : State :=
  if s.released then s
  else
    let s1 := stop s
    { s1 with released := true, audioBuffer := [], hasCallback := false }

/-- The frames emitted by `emitLoop` (source lines 205-239) on a run that
is never stopped (fast mode, callback registered, nothing calls `stop` or
`release`): slice a frame-length chunk, zero-pad a short final chunk,
advance by the frame length.  The source loops forever for
`frameLength = 0`; the model returns `[]` there (every claim assumes a
positive frame length). -/
def emitLoop (buf : List ℤ) (F : ℕ) : List (List ℤ) :=
  if _h : F = 0 ∨ buf.isEmpty then []
  else
    let frameData := buf.take F
    let frame := if frameData.length < F then
        frameData ++ List.replicate (F - frameData.length) 0
      else frameData
    frame :: emitLoop (buf.drop F) F
termination_by buf.length
decreasing_by
  push_neg at _h
  obtain ⟨h1, h2⟩ := _h
  have hpos : 0 < buf.length := by
    cases buf with
    | nil => simp at h2
    | cons a l => simp
  simp only [List.length_drop]
  omega

end EmulatedChannel

/-! ## Auxiliary definitions for the theorems -/

namespace VoiceActivityDetector

/-- Shift a frame's wall-clock timestamp by `c` (same samples, same engine
output). -/
def shiftInput (c : ℚ) (i : FrameInput) : FrameInput := { i with now := i.now + c }

/-- Shift every stored timestamp of a detector state by `c`. -/
def shiftState (c : ℚ) (s : State) : State :=
  { s with
    recordingStartTime := s.recordingStartTime.map (· + c)
    silenceStartTime := s.silenceStartTime.map (· + c)
    speechStartTime := s.speechStartTime.map (· + c) }

end VoiceActivityDetector

/-- Oracles for witnesses: the mel model always returns 2432 numbers
(76 frames of 32 bins), the embedding model an empty vector, the wake-word
model score 0. -/
def constOracles : WakeWordDetector.Oracles where
  melStage := fun _ => List.replicate 2432 0
  embedStage := fun _ => []
  scoreStage := fun _ => 0

/-- A 1280-sample frame of zeros. -/
def zeroFrame1280 : List ℤ := List.replicate 1280 0

/-! ## Helper lemmas -/

namespace VoiceActivityDetector

theorem State.ext {a b : State}
    (h1 : a.audioBuffer = b.audioBuffer)
    (h2 : a.silenceStartTime = b.silenceStartTime)
    (h3 : a.recordingStartTime = b.recordingStartTime)
    (h4 : a.hasDetectedSpeech = b.hasDetectedSpeech)
    (h5 : a.speechStartTime = b.speechStartTime)
    (h6 : a.engineLoaded = b.engineLoaded)
    (h7 : a.isReleased = b.isReleased)
    (h8 : a.ready = b.ready)
    (h9 : a.lastProbability = b.lastProbability)
    (h10 : a.lastIsSpeech = b.lastIsSpeech) : a = b := by
  cases a; cases b; simp_all

@[simp] theorem ingest_audioBuffer (cfg s i) :
    (ingest cfg s i).audioBuffer = s.audioBuffer ++ [i.frame] := by
  simp only [ingest, applyEngineCallbacks]
  split <;> split <;> split <;> rfl

@[simp] theorem ingest_recordingStartTime (cfg s i) :
    (ingest cfg s i).recordingStartTime = some (s.recordingStartTime.getD i.now) := by
  simp only [ingest, applyEngineCallbacks]
  rcases h : s.recordingStartTime with _ | t <;> simp [h] <;> split <;> split <;> rfl

@[simp] theorem ingest_lastProbability (cfg s i) :
    (ingest cfg s i).lastProbability = i.prob := by
  simp only [ingest, applyEngineCallbacks]
  split <;> split <;> split <;> rfl

@[simp] theorem ingest_lastIsSpeech (cfg s i) :
    (ingest cfg s i).lastIsSpeech = decide (i.prob > cfg.speechThreshold) := by
  simp only [ingest, applyEngineCallbacks]
  split <;> split <;> split <;> rfl

@[simp] theorem ingest_hasDetectedSpeech (cfg s i) :
    (ingest cfg s i).hasDetectedSpeech =
      (!i.misfire && (i.speechStart || s.hasDetectedSpeech)) := by
  simp only [ingest, applyEngineCallbacks]
  rcases hm : i.misfire <;> rcases hs : i.speechStart <;> simp [hm, hs] <;> split <;> rfl

@[simp] theorem ingest_speechStartTime (cfg s i) :
    (ingest cfg s i).speechStartTime =
      (if i.misfire then none
       else if i.speechStart then some i.now else s.speechStartTime) := by
  simp only [ingest, applyEngineCallbacks]
  rcases hm : i.misfire <;> rcases hs : i.speechStart <;> simp [hm, hs] <;> split <;> rfl

@[simp] theorem ingest_silenceStartTime (cfg s i) :
    (ingest cfg s i).silenceStartTime =
      (if i.speechStart then none else s.silenceStartTime) := by
  simp only [ingest, applyEngineCallbacks]
  rcases hm : i.misfire <;> rcases hs : i.speechStart <;> simp [hm, hs] <;> split <;> rfl

@[simp] theorem ingest_engineLoaded (cfg s i) :
    (ingest cfg s i).engineLoaded = s.engineLoaded := by
  simp only [ingest, applyEngineCallbacks]
  split <;> split <;> split <;> rfl

@[simp] theorem ingest_isReleased (cfg s i) :
    (ingest cfg s i).isReleased = s.isReleased := by
  simp only [ingest, applyEngineCallbacks]
  split <;> split <;> split <;> rfl

@[simp] theorem ingest_ready (cfg s i) :
    (ingest cfg s i).ready = s.ready := by
  simp only [ingest, applyEngineCallbacks]
  split <;> split <;> split <;> rfl

theorem processFrame_ok (cfg : VADConfig) (s : State) (i : FrameInput)
    (hrel : s.isReleased = false) (hready : s.ready = true)
    (heng : s.engineLoaded = true) :
    processFrame cfg s i = .ok (classify cfg (ingest cfg s i) i) := by
  simp [processFrame, hrel, hready, heng]

/-- `classify`, timeout branch. -/
theorem classify_timeout (cfg : VADConfig) (s : State) (i : FrameInput)
    (h : i.now - s.recordingStartTime.getD i.now > cfg.maxRecordingDuration) :
    classify cfg s i =
      (⟨.timeout, s.lastProbability, s.lastIsSpeech, some (getBufferedAudio s)⟩,
        clearState s) := by
  simp only [classify]
  rw [if_pos h]

/-- `classify` when within the max duration and the frame is speech. -/
theorem classify_speech (cfg : VADConfig) (s : State) (i : FrameInput)
    (hmax : ¬(i.now - s.recordingStartTime.getD i.now > cfg.maxRecordingDuration))
    (hsp : s.lastIsSpeech = true) :
    classify cfg s i =
      (⟨.cont, s.lastProbability, true, none⟩,
        { (if s.hasDetectedSpeech then s
           else { s with
                  hasDetectedSpeech := true
                  speechStartTime := some i.now }) with
          silenceStartTime := none }) := by
  simp only [classify]
  rw [if_neg hmax]
  rcases hd : s.hasDetectedSpeech <;> simp [hsp, hd]

/-- `classify` when within the max duration, the frame is not speech and no
speech has been detected. -/
theorem classify_quiet (cfg : VADConfig) (s : State) (i : FrameInput)
    (hmax : ¬(i.now - s.recordingStartTime.getD i.now > cfg.maxRecordingDuration))
    (hsp : s.lastIsSpeech = false) (hd : s.hasDetectedSpeech = false) :
    classify cfg s i = (⟨.cont, s.lastProbability, false, none⟩, s) := by
  simp only [classify]
  rw [if_neg hmax]
  simp [hsp, hd]

/-- `classify` in the min-speech-duration guard. -/
theorem classify_minSpeech (cfg : VADConfig) (s : State) (i : FrameInput) (ts : ℚ)
    (hmax : ¬(i.now - s.recordingStartTime.getD i.now > cfg.maxRecordingDuration))
    (hsp : s.lastIsSpeech = false) (hd : s.hasDetectedSpeech = true)
    (hts : s.speechStartTime = some ts)
    (hmin : i.now - ts < cfg.minSpeechDuration) :
    classify cfg s i = (⟨.cont, s.lastProbability, false, none⟩, s) := by
  simp only [classify]
  rw [if_neg hmax]
  simp [hsp, hd, hts, hmin]

/-- `classify` starting the silence timer on this frame (not yet over). -/
theorem classify_silenceStart (cfg : VADConfig) (s : State) (i : FrameInput) (ts : ℚ)
    (hmax : ¬(i.now - s.recordingStartTime.getD i.now > cfg.maxRecordingDuration))
    (hsp : s.lastIsSpeech = false) (hd : s.hasDetectedSpeech = true)
    (hts : s.speechStartTime = some ts)
    (hmin : ¬(i.now - ts < cfg.minSpeechDuration))
    (hsil : s.silenceStartTime = none)
    (hdur : ¬((0:ℚ) > cfg.silenceDuration)) :
    classify cfg s i =
      (⟨.cont, s.lastProbability, false, none⟩,
        { s with silenceStartTime := some i.now }) := by
  simp only [classify]
  rw [if_neg hmax]
  simp [hsp, hd, hts, hsil, hmin, hdur, sub_self]

/-- `classify` while the silence timer runs but has not exceeded the
configured silence duration. -/
theorem classify_silenceRunning (cfg : VADConfig) (s : State) (i : FrameInput)
    (ts tsil : ℚ)
    (hmax : ¬(i.now - s.recordingStartTime.getD i.now > cfg.maxRecordingDuration))
    (hsp : s.lastIsSpeech = false) (hd : s.hasDetectedSpeech = true)
    (hts : s.speechStartTime = some ts)
    (hmin : ¬(i.now - ts < cfg.minSpeechDuration))
    (hsil : s.silenceStartTime = some tsil)
    (hdur : ¬(i.now - tsil > cfg.silenceDuration)) :
    classify cfg s i = (⟨.cont, s.lastProbability, false, none⟩, s) := by
  simp only [classify]
  rw [if_neg hmax]
  simp [hsp, hd, hts, hmin, hsil, hdur]

/-- `classify` emitting `end`: silence has exceeded the configured
duration. -/
theorem classify_ended (cfg : VADConfig) (s : State) (i : FrameInput)
    (ts tsil : ℚ)
    (hmax : ¬(i.now - s.recordingStartTime.getD i.now > cfg.maxRecordingDuration))
    (hsp : s.lastIsSpeech = false) (hd : s.hasDetectedSpeech = true)
    (hts : s.speechStartTime = some ts)
    (hmin : ¬(i.now - ts < cfg.minSpeechDuration))
    (hsil : s.silenceStartTime = some tsil)
    (hdur : i.now - tsil > cfg.silenceDuration) :
    classify cfg s i =
      (⟨.ended, s.lastProbability, false, some (getBufferedAudio s)⟩,
        clearState s) := by
  simp only [classify]
  rw [if_neg hmax]
  simp [hsp, hd, hts, hmin, hsil, hdur]

theorem processFrame_quietExact (cfg : VADConfig) (s : State) (i : FrameInput)
    (t0 : ℚ)
    (hrel : s.isReleased = false) (hready : s.ready = true)
    (heng : s.engineLoaded = true)
    (hd : s.hasDetectedSpeech = false) (hsil : s.silenceStartTime = none)
    (hrec : s.recordingStartTime = some t0)
    (hp : i.prob ≤ cfg.speechThreshold) (hss : i.speechStart = false)
    (hmf : i.misfire = false)
    (htime : ¬(i.now - t0 > cfg.maxRecordingDuration)) :
    processFrame cfg s i =
      .ok (⟨.cont, i.prob, false, none⟩,
        { s with
          audioBuffer := s.audioBuffer ++ [i.frame]
          lastProbability := i.prob
          lastIsSpeech := false }) := by
  rw [processFrame_ok cfg s i hrel hready heng]
  have hsp2 : (ingest cfg s i).lastIsSpeech = false := by
    simp [ingest_lastIsSpeech, decide_eq_false_iff_not, not_lt.mpr hp]
  have hd2 : (ingest cfg s i).hasDetectedSpeech = false := by
    simp [ingest_hasDetectedSpeech, hss, hd]
  have htime2 :
      ¬(i.now - (ingest cfg s i).recordingStartTime.getD i.now >
        cfg.maxRecordingDuration) := by
    rw [ingest_recordingStartTime, hrec]
    simpa using htime
  rw [classify_quiet cfg _ i htime2 hsp2 hd2]
  refine congrArg Except.ok (Prod.ext ?_ ?_)
  · simp [ingest_lastProbability]
  · exact State.ext (by simp) (by simp [hss, hsil]) (by simp [hrec])
      (by simp [hss, hmf]) (by simp [hss, hmf]) (by simp) (by simp) (by simp)
      (by simp) (by simp [decide_eq_false_iff_not, not_lt.mpr hp])

theorem processFrame_quietFirst (cfg : VADConfig) (s : State) (i : FrameInput)
    (hrel : s.isReleased = false) (hready : s.ready = true)
    (heng : s.engineLoaded = true)
    (hd : s.hasDetectedSpeech = false) (hsil : s.silenceStartTime = none)
    (hrec : s.recordingStartTime = none)
    (hp : i.prob ≤ cfg.speechThreshold) (hss : i.speechStart = false)
    (hmf : i.misfire = false)
    (h0 : ¬((0:ℚ) > cfg.maxRecordingDuration)) :
    processFrame cfg s i =
      .ok (⟨.cont, i.prob, false, none⟩,
        { s with
          audioBuffer := s.audioBuffer ++ [i.frame]
          recordingStartTime := some i.now
          lastProbability := i.prob
          lastIsSpeech := false }) := by
  rw [processFrame_ok cfg s i hrel hready heng]
  have hsp2 : (ingest cfg s i).lastIsSpeech = false := by
    simp [ingest_lastIsSpeech, decide_eq_false_iff_not, not_lt.mpr hp]
  have hd2 : (ingest cfg s i).hasDetectedSpeech = false := by
    simp [ingest_hasDetectedSpeech, hss, hd]
  have htime2 :
      ¬(i.now - (ingest cfg s i).recordingStartTime.getD i.now >
        cfg.maxRecordingDuration) := by
    rw [ingest_recordingStartTime, hrec]
    simpa [sub_self] using h0
  rw [classify_quiet cfg _ i htime2 hsp2 hd2]
  refine congrArg Except.ok (Prod.ext ?_ ?_)
  · simp [ingest_lastProbability]
  · exact State.ext (by simp) (by simp [hss, hsil]) (by simp [hrec])
      (by simp [hss, hmf]) (by simp [hss, hmf]) (by simp) (by simp) (by simp)
      (by simp) (by simp [decide_eq_false_iff_not, not_lt.mpr hp])

theorem processTrace_append (cfg : VADConfig) (s : State)
    (xs ys : List FrameInput) :
    processTrace cfg s (xs ++ ys) =
      (processTrace cfg s xs).bind (fun p =>
        (processTrace cfg p.2 ys).map (fun q => (p.1 ++ q.1, q.2))) := by
  induction xs generalizing s with
  | nil =>
    simp [processTrace]
  | cons i rest ih =>
    simp only [List.cons_append, processTrace]
    cases processFrame cfg s i with
    | error e => simp [Except.toOption]
    | ok p =>
      simp only [Except.toOption, Option.some_bind, List.append_eq]
      rw [ih p.2]
      cases processTrace cfg p.2 rest with
      | none => simp
      | some q =>
        simp only [Option.some_bind, Option.map_some', Option.map_map]
        refine congrFun (congrArg Option.map ?_) _
        funext q1
        simp

theorem processTrace_quietRun (cfg : VADConfig) (t0 : ℚ)
    (ins : List FrameInput) :
    ∀ s : State, s.isReleased = false → s.ready = true →
    s.engineLoaded = true → s.hasDetectedSpeech = false →
    s.silenceStartTime = none → s.recordingStartTime = some t0 →
    (∀ i ∈ ins, i.prob ≤ cfg.speechThreshold ∧ i.speechStart = false ∧
      i.misfire = false ∧ ¬(i.now - t0 > cfg.maxRecordingDuration)) →
    ∃ p ils,
      processTrace cfg s ins =
        some (ins.map (fun i => ⟨.cont, i.prob, false, none⟩),
          { s with
            audioBuffer := s.audioBuffer ++ ins.map (fun i => i.frame)
            lastProbability := p
            lastIsSpeech := ils }) := by
  induction ins with
  | nil =>
    intro s hrel hready heng hd hsil hrec _
    refine ⟨s.lastProbability, s.lastIsSpeech, ?_⟩
    simp [processTrace]
  | cons i rest ih =>
    intro s hrel hready heng hd hsil hrec hq
    have hqi := hq i (List.mem_cons_self i rest)
    have hqrest : ∀ j ∈ rest, j.prob ≤ cfg.speechThreshold ∧
        j.speechStart = false ∧ j.misfire = false ∧
        ¬(j.now - t0 > cfg.maxRecordingDuration) :=
      fun j hj => hq j (List.mem_cons_of_mem i hj)
    rw [processTrace, processFrame_quietExact cfg s i t0 hrel hready heng hd
      hsil hrec hqi.1 hqi.2.1 hqi.2.2.1 hqi.2.2.2]
    simp only [Except.toOption, Option.some_bind, List.append_eq]
    obtain ⟨p, ils, hrun⟩ := ih
      { s with
        audioBuffer := s.audioBuffer ++ [i.frame]
        lastProbability := i.prob
        lastIsSpeech := false }
      (by simp [hrel]) (by simp [hready]) (by simp [heng]) (by simp [hd])
      (by simp [hsil]) (by simp [hrec]) hqrest
    rw [hrun]
    exact ⟨p, ils, by simp [List.append_assoc]⟩

theorem clearState_shift (c : ℚ) (s : State) :
    clearState (shiftState c s) = shiftState c (clearState s) := by
  simp [clearState, shiftState]

theorem ingest_shift (cfg : VADConfig) (c : ℚ) (s : State) (i : FrameInput) :
    ingest cfg (shiftState c s) (shiftInput c i) = shiftState c (ingest cfg s i) := by
  refine State.ext ?_ ?_ ?_ ?_ ?_ ?_ ?_ ?_ ?_ ?_
  · simp [shiftState, shiftInput]
  · rcases hss : i.speechStart <;> simp [shiftState, shiftInput, hss]
  · rcases hrec : s.recordingStartTime <;> simp [shiftState, shiftInput, hrec]
  · simp [shiftState, shiftInput]
  · rcases hmf : i.misfire <;> rcases hss : i.speechStart <;>
      simp [shiftState, shiftInput, hmf, hss]
  · simp [shiftState, shiftInput]
  · simp [shiftState, shiftInput]
  · simp [shiftState, shiftInput]
  · simp [shiftState, shiftInput]
  · simp [shiftState, shiftInput]

/-- `classify` with no speech on this frame but speech already detected:
the whole min-speech / silence-timer tail of the function. -/
theorem classify_notSpeech (cfg : VADConfig) (s : State) (i : FrameInput)
    (hmax : ¬(i.now - s.recordingStartTime.getD i.now > cfg.maxRecordingDuration))
    (hsp : s.lastIsSpeech = false) (hd : s.hasDetectedSpeech = true) :
    classify cfg s i =
      (if (match s.speechStartTime with
            | some t => i.now - t
            | none => (0:ℚ)) < cfg.minSpeechDuration then
        (⟨.cont, s.lastProbability, false, none⟩, s)
       else
         let s4 := match s.silenceStartTime with
           | none => { s with silenceStartTime := some i.now }
           | some _ => s
         if i.now - s4.silenceStartTime.getD i.now > cfg.silenceDuration then
           (⟨.ended, s.lastProbability, false, some (getBufferedAudio s4)⟩,
             clearState s4)
         else (⟨.cont, s.lastProbability, false, none⟩, s4)) := by
  simp only [classify]
  rw [if_neg hmax]
  simp [hsp, hd]

theorem classify_shift (cfg : VADConfig) (c : ℚ) (s : State) (i : FrameInput) :
    classify cfg (shiftState c s) (shiftInput c i) =
      ((classify cfg s i).1, shiftState c (classify cfg s i).2) := by
  have hsub : (shiftInput c i).now -
      (shiftState c s).recordingStartTime.getD (shiftInput c i).now =
      i.now - s.recordingStartTime.getD i.now := by
    rcases hrec : s.recordingStartTime with _ | t0 <;>
      simp [shiftState, shiftInput, hrec]
  by_cases hmax : i.now - s.recordingStartTime.getD i.now > cfg.maxRecordingDuration
  · rw [classify_timeout cfg (shiftState c s) (shiftInput c i) (by rw [hsub]; exact hmax),
      classify_timeout cfg s i hmax]
    exact Prod.ext rfl (clearState_shift c s)
  · have hmax' : ¬((shiftInput c i).now -
        (shiftState c s).recordingStartTime.getD (shiftInput c i).now >
        cfg.maxRecordingDuration) := by rw [hsub]; exact hmax
    rcases hsp : s.lastIsSpeech with _ | _
    · -- not speech
      have hsp' : (shiftState c s).lastIsSpeech = false := by
        simpa [shiftState] using hsp
      rcases hd : s.hasDetectedSpeech with _ | _
      · -- quiet: no speech so far
        have hd' : (shiftState c s).hasDetectedSpeech = false := by
          simpa [shiftState] using hd
        rw [classify_quiet cfg (shiftState c s) (shiftInput c i) hmax' hsp' hd',
          classify_quiet cfg s i hmax hsp hd]
        rfl
      · -- silence-counting path
        have hd' : (shiftState c s).hasDetectedSpeech = true := by
          simpa [shiftState] using hd
        rw [classify_notSpeech cfg (shiftState c s) (shiftInput c i) hmax' hsp' hd',
          classify_notSpeech cfg s i hmax hsp hd]
        rcases hts : s.speechStartTime with _ | ts <;>
          rcases hsil : s.silenceStartTime with _ | tsil <;>
          simp only [shiftState, shiftInput, hts, hsil, Option.map_none',
            Option.map_some', Option.getD_some, add_sub_add_right_eq_sub,
            sub_self] <;>
          split_ifs <;>
          simp [shiftState, shiftInput, hts, hsil, clearState,
            getBufferedAudio]
    · -- speech frame
      have hsp' : (shiftState c s).lastIsSpeech = true := by
        simpa [shiftState] using hsp
      rw [classify_speech cfg (shiftState c s) (shiftInput c i) hmax' hsp',
        classify_speech cfg s i hmax hsp]
      rcases hd : s.hasDetectedSpeech with _ | _ <;>
        exact Prod.ext rfl (State.ext (by simp [shiftState, shiftInput, hd])
          (by simp [shiftState, shiftInput, hd])
          (by simp [shiftState, shiftInput, hd])
          (by simp [shiftState, shiftInput, hd])
          (by simp [shiftState, shiftInput, hd])
          (by simp [shiftState, shiftInput, hd])
          (by simp [shiftState, shiftInput, hd])
          (by simp [shiftState, shiftInput, hd])
          (by simp [shiftState, shiftInput, hd])
          (by simp [shiftState, shiftInput, hd]))

theorem processFrame_shift (cfg : VADConfig) (c : ℚ) (s : State) (i : FrameInput) :
    processFrame cfg (shiftState c s) (shiftInput c i) =
      (processFrame cfg s i).map (fun p => (p.1, shiftState c p.2)) := by
  simp only [processFrame]
  have e1 : (shiftState c s).isReleased = s.isReleased := rfl
  have e2 : (shiftState c s).ready = s.ready := rfl
  have e3 : (shiftState c s).engineLoaded = s.engineLoaded := rfl
  rw [e1, e2, e3]
  split_ifs
  · rfl
  · rfl
  · rw [ingest_shift, classify_shift]
    rfl

theorem processTrace_shift (cfg : VADConfig) (c : ℚ) (ins : List FrameInput) :
    ∀ s : State,
      processTrace cfg (shiftState c s) (ins.map (shiftInput c)) =
        (processTrace cfg s ins).map (fun p => (p.1, shiftState c p.2)) := by
  induction ins with
  | nil =>
    intro s
    simp [processTrace]
  | cons i rest ih =>
    intro s
    simp only [List.map_cons, processTrace, processFrame_shift]
    cases processFrame cfg s i with
    | error e => simp [Except.map, Except.toOption]
    | ok p =>
      simp only [Except.map, Except.toOption, Option.some_bind]
      rw [ih p.2]
      cases processTrace cfg p.2 rest <;> rfl

end VoiceActivityDetector

namespace WakeWordDetector

theorem slideLoop_single (o : Oracles) (mel emb : List (List ℚ))
    (h1 : MEL_BUFFER_SIZE ≤ mel.length)
    (h2 : mel.length < MEL_BUFFER_SIZE + EMBEDDING_WINDOW_SLIDE) :
    slideLoop o mel emb =
      (mel.drop EMBEDDING_WINDOW_SLIDE,
        emb ++ [o.embedStage (mel.take MEL_BUFFER_SIZE)]) := by
  have hlt : ¬(MEL_BUFFER_SIZE ≤ (mel.drop EMBEDDING_WINDOW_SLIDE).length) := by
    simp only [List.length_drop, MEL_BUFFER_SIZE, EMBEDDING_WINDOW_SLIDE] at *
    omega
  rw [slideLoop, dif_pos h1, slideLoop, dif_neg hlt]

end WakeWordDetector

namespace EmulatedChannel

theorem emitLoop_nil (F : ℕ) : emitLoop [] F = [] := by
  rw [emitLoop]
  simp

theorem emitLoop_step (buf : List ℤ) (F : ℕ) (hF : F ≠ 0) (hb : buf ≠ []) :
    emitLoop buf F =
      (if buf.length < F then buf ++ List.replicate (F - buf.length) 0
       else buf.take F) :: emitLoop (buf.drop F) F := by
  rw [emitLoop, dif_neg (by simp [hF, hb])]
  dsimp only
  congr 1
  by_cases h : buf.length < F
  · have ht : buf.take F = buf := List.take_of_length_le h.le
    simp [ht, h]
  · have hcond : ¬((buf.take F).length < F) := by
      simp only [List.length_take]
      omega
    rw [if_neg hcond, if_neg h]

theorem emitLoop_ne_nil (buf : List ℤ) (F : ℕ) (hF : F ≠ 0) (hb : buf ≠ []) :
    emitLoop buf F ≠ [] := by
  rw [emitLoop_step buf F hF hb]
  simp

theorem emitLoop_length (F : ℕ) (hF : 0 < F) :
    ∀ n (buf : List ℤ), buf.length = n →
      (emitLoop buf F).length = (buf.length + F - 1) / F := by
  intro n
  induction n using Nat.strong_induction_on with
  | _ n ih =>
    intro buf hlen
    rcases eq_or_ne buf [] with rfl | hb
    · have hz : (F - 1) / F = 0 := Nat.div_eq_of_lt (by omega)
      rw [emitLoop_nil]
      simp [hz]
    · have hpos : 0 < buf.length := List.length_pos.mpr hb
      rw [emitLoop_step buf F hF.ne' hb]
      simp only [List.length_cons, List.length_drop]
      rw [ih (buf.length - F) (by omega) (buf.drop F) (by simp)]
      simp only [List.length_drop]
      by_cases h : buf.length ≤ F
      · have h1 : buf.length - F = 0 := by omega
        rw [h1]
        rw [Nat.div_eq_of_lt (by omega : 0 + F - 1 < F)]
        rw [Nat.div_eq_of_lt_le (by omega : 1 * F ≤ buf.length + F - 1)
          (by omega : buf.length + F - 1 < (1 + 1) * F)]
      · have h1 : buf.length - F + F - 1 = buf.length - 1 + F - F := by omega
        have h2 : buf.length + F - 1 = buf.length - 1 + F := by omega
        rw [h2, Nat.add_div_right _ hF]
        have h3 : buf.length - F + F - 1 = buf.length - 1 := by omega
        rw [h3]

theorem emitLoop_frame_lengths (F : ℕ) (hF : 0 < F) :
    ∀ n (buf : List ℤ), buf.length = n →
      ∀ fr ∈ emitLoop buf F, fr.length = F := by
  intro n
  induction n using Nat.strong_induction_on with
  | _ n ih =>
    intro buf hlen fr hfr
    rcases eq_or_ne buf [] with rfl | hb
    · rw [emitLoop_nil] at hfr
      simp at hfr
    · have hpos : 0 < buf.length := List.length_pos.mpr hb
      rw [emitLoop_step buf F hF.ne' hb] at hfr
      rcases List.mem_cons.mp hfr with rfl | htail
      · by_cases h : buf.length < F
        · simp [h]
          omega
        · simp [h, List.length_take]
          omega
      · exact ih (buf.length - F) (by omega) (buf.drop F) (by simp) fr htail

theorem getLast?_cons_of_ne_nil (a : List ℤ) {l : List (List ℤ)} (h : l ≠ []) :
    (a :: l).getLast? = l.getLast? := by
  cases l with
  | nil => exact absurd rfl h
  | cons b t => simp

theorem emitLoop_getLast (F : ℕ) (hF : 0 < F) :
    ∀ n (buf : List ℤ), buf.length = n → buf.length % F ≠ 0 →
      (emitLoop buf F).getLast? =
        some (buf.drop (F * (buf.length / F)) ++
          List.replicate (F - buf.length % F) 0) := by
  intro n
  induction n using Nat.strong_induction_on with
  | _ n ih =>
    intro buf hlen hm
    have hb : buf ≠ [] := by
      intro hc
      subst hc
      simp at hm
    have hpos : 0 < buf.length := List.length_pos.mpr hb
    rw [emitLoop_step buf F hF.ne' hb]
    by_cases h : buf.length < F
    · have hdrop : buf.drop F = [] := List.drop_eq_nil_of_le h.le
      rw [hdrop, emitLoop_nil]
      have hmod : buf.length % F = buf.length := Nat.mod_eq_of_lt h
      have hdiv : buf.length / F = 0 := Nat.div_eq_of_lt h
      simp [h, hmod, hdiv]
    · have hlt : F < buf.length := by
        rcases lt_or_eq_of_le (not_lt.mp h) with h1 | h1
        · exact h1
        · exfalso
          apply hm
          rw [← h1, Nat.mod_self]
      have hmod : (buf.drop F).length % F = buf.length % F := by
        have : buf.length = buf.length - F + F := by omega
        simp only [List.length_drop]
        conv_rhs => rw [this]
        rw [Nat.add_mod_right]
      have htailne : emitLoop (buf.drop F) F ≠ [] :=
        emitLoop_ne_nil (buf.drop F) F hF.ne' (by
          intro hc
          have := congrArg List.length hc
          simp at this
          omega)
      rw [getLast?_cons_of_ne_nil _ htailne]
      rw [ih (buf.length - F) (by omega) (buf.drop F) (by simp)
        (by rw [hmod]; exact hm)]
      congr 1
      rw [List.drop_drop]
      simp only [List.length_drop]
      have hdiv : buf.length / F = (buf.length - F) / F + 1 := by
        have hsplit : buf.length = buf.length - F + F := by omega
        conv_lhs => rw [hsplit]
        rw [Nat.add_div_right _ hF]
      have hmod2 : (buf.length - F) % F = buf.length % F := by
        simpa using hmod
      rw [hmod2, hdiv]
      have harg : F + F * ((buf.length - F) / F) =
          F * ((buf.length - F) / F + 1) := by ring
      rw [harg]

theorem flatten_replicate_frames (F : ℕ) :
    ∀ l : List (List ℤ), (∀ x ∈ l, x = List.replicate F 0) →
      l.flatten = List.replicate (l.length * F) 0 := by
  intro l
  induction l with
  | nil => simp
  | cons a t ih =>
    intro h
    have ha : a = List.replicate F 0 := h a (List.mem_cons_self a t)
    have ht : t.flatten = List.replicate (t.length * F) 0 :=
      ih (fun x hx => h x (List.mem_cons_of_mem a hx))
    simp only [List.flatten_cons, ha, ht, List.length_cons]
    rw [← List.replicate_add]
    congr 1
    ring

end EmulatedChannel

/-! ## Claim theorems -/

/-- C9: for each detector and the audio channel, calling `release()` (or
`stop()`) a second time yields the same observable state as calling it
once.  The embedded operations are total functions, reflecting that the
source bodies never throw. -/
theorem shutdown_idempotent :
    (∀ s : VoiceActivityDetector.State,
      VoiceActivityDetector.release (VoiceActivityDetector.release s) =
        VoiceActivityDetector.release s) ∧
    (∀ s : WakeWordDetector.State,
      WakeWordDetector.release (WakeWordDetector.release s) =
        WakeWordDetector.release s) ∧
    (∀ s : EmulatedChannel.State,
      EmulatedChannel.stop (EmulatedChannel.stop s) = EmulatedChannel.stop s) ∧
    (∀ s : EmulatedChannel.State,
      EmulatedChannel.release (EmulatedChannel.release s) =
        EmulatedChannel.release s) := by
  refine ⟨fun s => ?_, fun s => ?_, fun s => ?_, fun s => ?_⟩
  · by_cases h : s.isReleased <;> simp [VoiceActivityDetector.release, h]
  · by_cases h : s.isReleased <;> simp [WakeWordDetector.release, h]
  · rfl
  · by_cases h : s.released <;>
      simp [EmulatedChannel.release, EmulatedChannel.stop, h]

/-- C4 counterexample: constructing a `VoiceActivityDetector` with a
negative `minSpeechDuration` succeeds (no `ConfigError`), refuting the
claim that any negative configured duration is rejected. -/
theorem construct_accepts_negative_minSpeechDuration :
    VoiceActivityDetector.construct { minSpeechDuration := some (-1) } =
      .ok ⟨1/2, 7/20, 700, 30000, -1⟩ := by
  norm_num [VoiceActivityDetector.construct, VoiceActivityDetector.resolveOptions]

/-- C4 amended: construction fails with a `VADError` exactly when a
threshold is outside `[0,1]`, or `silenceDuration` or
`maxRecordingDuration` is negative; `minSpeechDuration` is not
validated. -/
theorem construct_validation_iff (o : VADOptions) :
    (∃ e, VoiceActivityDetector.construct o = .error e) ↔
      ((VoiceActivityDetector.resolveOptions o).speechThreshold < 0 ∨
       (VoiceActivityDetector.resolveOptions o).speechThreshold > 1 ∨
       (VoiceActivityDetector.resolveOptions o).silenceThreshold < 0 ∨
       (VoiceActivityDetector.resolveOptions o).silenceThreshold > 1 ∨
       (VoiceActivityDetector.resolveOptions o).silenceDuration < 0 ∨
       (VoiceActivityDetector.resolveOptions o).maxRecordingDuration < 0) := by
  simp only [VoiceActivityDetector.construct]
  split_ifs with h1 h2 h3 h4 <;> simp_all <;> tauto

/-- C1 (code bug): after a speech frame, two frames whose probability 2/5
lies strictly between the offset threshold (0.35) and the onset threshold
(0.5) still drive the default segmenter to emit `end` once the silence
duration elapses — the end-of-speech path compares only against the onset
threshold, so the claimed hysteresis does not hold. -/
theorem hysteresis_dip_emits_end :
    (VoiceActivityDetector.resolveOptions {}).silenceThreshold < 2/5 ∧
    ((2:ℚ)/5) < (VoiceActivityDetector.resolveOptions {}).speechThreshold ∧
    (VoiceActivityDetector.processTrace (VoiceActivityDetector.resolveOptions {})
        VoiceActivityDetector.initState
        [⟨[0], 0, 9/10, true, false⟩, ⟨[0], 300, 2/5, false, false⟩,
          ⟨[0], 1100, 2/5, false, false⟩]).map
        (fun p => p.1.map (fun r => r.status))
      = some [.cont, .cont, .ended] := by
  refine ⟨by norm_num [VoiceActivityDetector.resolveOptions],
    by norm_num [VoiceActivityDetector.resolveOptions], ?_⟩
  norm_num [VoiceActivityDetector.processTrace, VoiceActivityDetector.processFrame,
    VoiceActivityDetector.ingest, VoiceActivityDetector.applyEngineCallbacks,
    VoiceActivityDetector.classify, VoiceActivityDetector.clearState,
    VoiceActivityDetector.getBufferedAudio, VoiceActivityDetector.resolveOptions,
    VoiceActivityDetector.initState, Except.toOption]

/-- C8 counterexample: two runs over the identical frame sequence (same
samples, same engine probabilities) through fresh default segmenters
produce different event sequences when only the wall-clock timestamps
differ, refuting "depends only on frame counts". -/
theorem identical_frames_different_clock :
    (VoiceActivityDetector.processTrace (VoiceActivityDetector.resolveOptions {})
        VoiceActivityDetector.initState
        [⟨[0], 0, 2/5, false, false⟩, ⟨[0], 100, 2/5, false, false⟩]).map
        (fun p => p.1.map (fun r => r.status)) = some [.cont, .cont] ∧
    (VoiceActivityDetector.processTrace (VoiceActivityDetector.resolveOptions {})
        VoiceActivityDetector.initState
        [⟨[0], 0, 2/5, false, false⟩, ⟨[0], 30001, 2/5, false, false⟩]).map
        (fun p => p.1.map (fun r => r.status)) = some [.cont, .timeout] := by
  constructor <;>
    norm_num [VoiceActivityDetector.processTrace, VoiceActivityDetector.processFrame,
      VoiceActivityDetector.ingest, VoiceActivityDetector.applyEngineCallbacks,
      VoiceActivityDetector.classify, VoiceActivityDetector.clearState,
      VoiceActivityDetector.getBufferedAudio, VoiceActivityDetector.resolveOptions,
      VoiceActivityDetector.initState, Except.toOption]

/-- C8 amended: replay is deterministic given the frames, the engine
outputs and the relative pacing: shifting every wall-clock timestamp by a
constant leaves the emitted results (statuses, probabilities, captured
buffers) unchanged.  Equal frame counts alone do not determine the
outputs, because the segmenter's timers read the wall clock. -/
theorem processTrace_time_shift_invariant (cfg : VADConfig) (c : ℚ)
    (ins : List VoiceActivityDetector.FrameInput)
    (s : VoiceActivityDetector.State) :
    VoiceActivityDetector.processTrace cfg
        (VoiceActivityDetector.shiftState c s)
        (ins.map (VoiceActivityDetector.shiftInput c)) =
      (VoiceActivityDetector.processTrace cfg s ins).map
        (fun p => (p.1, VoiceActivityDetector.shiftState c p.2)) :=
  VoiceActivityDetector.processTrace_shift cfg c ins s

/-- C5: `WakeWordDetector.create` with a sensitivity outside `[0,1]`
fails with the `WakeWordError` from the constructor and performs no
external action: no model-file existence check and no inference-session
creation. -/
theorem create_invalid_sensitivity_no_load (env : WakeWordDetector.Env)
    (cwd : String) (o : WakeWordDetectorOptions) (x : ℚ)
    (hx : o.sensitivity = some x) (hout : x < 0 ∨ x > 1) :
    WakeWordDetector.create env cwd o =
      (.error (.wakeWordError "Sensitivity must be between 0.0 and 1.0"), []) := by
  have hc : WakeWordDetector.construct cwd o =
      .error (.wakeWordError "Sensitivity must be between 0.0 and 1.0") := by
    simp only [WakeWordDetector.construct, hx, Option.getD_some]
    rw [if_pos hout]
  unfold WakeWordDetector.create
  rw [hc]

/-- C5 witness: sensitivity 1.5 at a concrete environment. -/
theorem create_invalid_sensitivity_no_load_witness :
    ({ sensitivity := some (3/2) } : WakeWordDetectorOptions).sensitivity =
        some (3/2) ∧
    (((3:ℚ)/2) < 0 ∨ ((3:ℚ)/2) > 1) ∧
    WakeWordDetector.create ⟨fun _ => true, fun _ => true⟩ "/app"
        { sensitivity := some (3/2) } =
      (.error (.wakeWordError "Sensitivity must be between 0.0 and 1.0"), []) :=
  ⟨rfl, Or.inr (by norm_num),
    create_invalid_sensitivity_no_load ⟨fun _ => true, fun _ => true⟩ "/app"
      { sensitivity := some (3/2) } (3/2) rfl (Or.inr (by norm_num))⟩

/-- C7: starting an emulated channel over a buffer whose length is not a
multiple of the frame length emits exactly `ceil(length / frameLength)`
frames, every frame has exactly `frameLength` samples, and the final frame
is the remaining samples zero-padded to the frame length. -/
theorem emitLoop_boundary_spec (buf : List ℤ) (F : ℕ) (hF : 0 < F)
    (hm : buf.length % F ≠ 0) :
    (EmulatedChannel.emitLoop buf F).length = (buf.length + F - 1) / F ∧
    (EmulatedChannel.emitLoop buf F).length = buf.length / F + 1 ∧
    (∀ fr ∈ EmulatedChannel.emitLoop buf F, fr.length = F) ∧
    (EmulatedChannel.emitLoop buf F).getLast? =
      some (buf.drop (F * (buf.length / F)) ++
        List.replicate (F - buf.length % F) 0) := by
  refine ⟨EmulatedChannel.emitLoop_length F hF _ buf rfl, ?_,
    fun fr hfr => EmulatedChannel.emitLoop_frame_lengths F hF _ buf rfl fr hfr,
    EmulatedChannel.emitLoop_getLast F hF _ buf rfl hm⟩
  rw [EmulatedChannel.emitLoop_length F hF _ buf rfl]
  have hr : 0 < buf.length % F := Nat.pos_of_ne_zero hm
  have hrlt : buf.length % F < F := Nat.mod_lt _ hF
  have hqr := Nat.div_add_mod buf.length F
  have hx : F * (buf.length / F + 1) = F * (buf.length / F) + F := by ring
  have hsplit : buf.length + F - 1 =
      F * (buf.length / F + 1) + (buf.length % F - 1) := by omega
  rw [hsplit, Nat.mul_add_div hF,
    Nat.div_eq_of_lt (by omega : buf.length % F - 1 < F)]

/-- C7 witness: a 3-sample buffer with frame length 2 emits 2 frames, the
last zero-padded. -/
theorem emitLoop_boundary_spec_witness :
    ((0 < 2) ∧ ([1, 2, 3] : List ℤ).length % 2 ≠ 0) ∧
    ((EmulatedChannel.emitLoop ([1, 2, 3] : List ℤ) 2).length =
        (([1, 2, 3] : List ℤ).length + 2 - 1) / 2 ∧
     (EmulatedChannel.emitLoop ([1, 2, 3] : List ℤ) 2).length =
        ([1, 2, 3] : List ℤ).length / 2 + 1 ∧
     (∀ fr ∈ EmulatedChannel.emitLoop ([1, 2, 3] : List ℤ) 2, fr.length = 2) ∧
     (EmulatedChannel.emitLoop ([1, 2, 3] : List ℤ) 2).getLast? =
        some (([1, 2, 3] : List ℤ).drop (2 * (([1, 2, 3] : List ℤ).length / 2)) ++
          List.replicate (2 - ([1, 2, 3] : List ℤ).length % 2) 0)) :=
  ⟨⟨by norm_num, by norm_num⟩,
    emitLoop_boundary_spec [1, 2, 3] 2 (by norm_num) (by norm_num)⟩

namespace VoiceActivityDetector

theorem processFrame_quietCase (cfg : VADConfig) (s : State) (i : FrameInput)
    (hrel : s.isReleased = false) (hready : s.ready = true)
    (heng : s.engineLoaded = true) (hd : s.hasDetectedSpeech = false)
    (hsil : s.silenceStartTime = none)
    (hp : i.prob ≤ cfg.speechThreshold) (hss : i.speechStart = false) :
    ∃ r s1, processFrame cfg s i = .ok (r, s1) ∧ r.status ≠ .ended ∧
      s1.isReleased = false ∧ s1.ready = true ∧ s1.engineLoaded = true ∧
      s1.hasDetectedSpeech = false ∧ s1.silenceStartTime = none := by
  rw [processFrame_ok cfg s i hrel hready heng]
  have hsp2 : (ingest cfg s i).lastIsSpeech = false := by
    simp [ingest_lastIsSpeech, decide_eq_false_iff_not, not_lt.mpr hp]
  have hd2 : (ingest cfg s i).hasDetectedSpeech = false := by
    simp [ingest_hasDetectedSpeech, hss, hd]
  by_cases hmax : i.now - (ingest cfg s i).recordingStartTime.getD i.now >
      cfg.maxRecordingDuration
  · rw [classify_timeout cfg _ i hmax]
    exact ⟨_, _, rfl, by simp, by simp [clearState, ingest_isReleased, hrel],
      by simp [clearState, ingest_ready, hready],
      by simp [clearState, ingest_engineLoaded, heng],
      by simp [clearState], by simp [clearState]⟩
  · rw [classify_quiet cfg _ i hmax hsp2 hd2]
    exact ⟨_, _, rfl, by simp, by simp [ingest_isReleased, hrel],
      by simp [ingest_ready, hready], by simp [ingest_engineLoaded, heng],
      hd2, by simp [ingest_silenceStartTime, hss, hsil]⟩

end VoiceActivityDetector

/-- C6: as long as the speech flag has never been set (no frame exceeded
the onset threshold, and the engine never fired `onSpeechStart`), the
segmenter never returns status `end` and the silence timer stays unset,
over any whole frame sequence. -/
theorem no_end_before_speech (cfg : VADConfig)
    (s : VoiceActivityDetector.State)
    (ins : List VoiceActivityDetector.FrameInput)
    (hrel : s.isReleased = false) (hready : s.ready = true)
    (heng : s.engineLoaded = true) (hd : s.hasDetectedSpeech = false)
    (hsil : s.silenceStartTime = none)
    (hq : ∀ i ∈ ins, i.prob ≤ cfg.speechThreshold ∧ i.speechStart = false) :
    ∃ rs s1, VoiceActivityDetector.processTrace cfg s ins = some (rs, s1) ∧
      (∀ r ∈ rs, r.status ≠ .ended) ∧
      s1.hasDetectedSpeech = false ∧ s1.silenceStartTime = none := by
  induction ins generalizing s with
  | nil =>
    exact ⟨[], s, by simp [VoiceActivityDetector.processTrace], by simp, hd, hsil⟩
  | cons i rest ih =>
    obtain ⟨r, s1, hpf, hrne, f1, f2, f3, f4, f5⟩ :=
      VoiceActivityDetector.processFrame_quietCase cfg s i hrel hready heng hd
        hsil (hq i (List.mem_cons_self i rest)).1 (hq i (List.mem_cons_self i rest)).2
    obtain ⟨rs, s2, hrest, hall, g1, g2⟩ := ih s1 f1 f2 f3 f4 f5
      (fun j hj => hq j (List.mem_cons_of_mem i hj))
    refine ⟨r :: rs, s2, ?_, ?_, g1, g2⟩
    · rw [VoiceActivityDetector.processTrace, hpf]
      simp only [Except.toOption, Option.some_bind]
      rw [hrest]
      rfl
    · intro r2 hr2
      rcases List.mem_cons.mp hr2 with rfl | hmem
      · exact hrne
      · exact hall r2 hmem

/-- C6 witness: one quiet frame through a fresh default segmenter. -/
theorem no_end_before_speech_witness :
    (VoiceActivityDetector.initState.isReleased = false ∧
     VoiceActivityDetector.initState.ready = true ∧
     VoiceActivityDetector.initState.engineLoaded = true ∧
     VoiceActivityDetector.initState.hasDetectedSpeech = false ∧
     VoiceActivityDetector.initState.silenceStartTime = none ∧
     (∀ i ∈ [(⟨[0], 0, 1/4, false, false⟩ : VoiceActivityDetector.FrameInput)],
       i.prob ≤ (VoiceActivityDetector.resolveOptions {}).speechThreshold ∧
       i.speechStart = false)) ∧
    (∃ rs s1, VoiceActivityDetector.processTrace
        (VoiceActivityDetector.resolveOptions {})
        VoiceActivityDetector.initState
        [⟨[0], 0, 1/4, false, false⟩] = some (rs, s1) ∧
      (∀ r ∈ rs, r.status ≠ .ended) ∧
      s1.hasDetectedSpeech = false ∧ s1.silenceStartTime = none) :=
  ⟨⟨rfl, rfl, rfl, rfl, rfl,
    by norm_num [VoiceActivityDetector.resolveOptions]⟩,
    no_end_before_speech (VoiceActivityDetector.resolveOptions {})
      VoiceActivityDetector.initState [⟨[0], 0, 1/4, false, false⟩]
      rfl rfl rfl rfl rfl
      (by norm_num [VoiceActivityDetector.resolveOptions])⟩

/-- C10: whenever `processFrame` returns `end` or `timeout`, the returned
state is already cleared: empty audio buffer, all three timestamps unset
and the speech flag reset — the next `processFrame` starts a fresh
recording without any caller-side `reset()`. -/
theorem terminal_clears_state (cfg : VADConfig)
    (s : VoiceActivityDetector.State) (i : VoiceActivityDetector.FrameInput)
    (r : VoiceActivityDetector.Result) (s1 : VoiceActivityDetector.State)
    (h : VoiceActivityDetector.processFrame cfg s i = .ok (r, s1))
    (hterm : r.status = .ended ∨ r.status = .timeout) :
    s1.audioBuffer = [] ∧ s1.recordingStartTime = none ∧
    s1.silenceStartTime = none ∧ s1.speechStartTime = none ∧
    s1.hasDetectedSpeech = false := by
  by_cases h1 : s.isReleased
  · simp [VoiceActivityDetector.processFrame, h1] at h
  by_cases h2 : (!s.ready || !s.engineLoaded) = true
  · rw [VoiceActivityDetector.processFrame, if_neg (by simpa using h1),
      if_pos h2] at h
    exact absurd h (by simp)
  have hready : s.ready = true := by
    rcases hr : s.ready
    · exact absurd (by simp [hr]) h2
    · rfl
  have heng : s.engineLoaded = true := by
    rcases he : s.engineLoaded
    · exact absurd (by simp [he]) h2
    · rfl
  rw [VoiceActivityDetector.processFrame_ok cfg s i (by simpa using h1)
    hready heng, Except.ok.injEq] at h
  by_cases hmax : i.now -
      (VoiceActivityDetector.ingest cfg s i).recordingStartTime.getD i.now >
      cfg.maxRecordingDuration
  · rw [VoiceActivityDetector.classify_timeout cfg _ i hmax,
      Prod.mk.injEq] at h
    obtain ⟨_, hs⟩ := h
    rw [← hs]
    simp [VoiceActivityDetector.clearState]
  · rcases hsp : (VoiceActivityDetector.ingest cfg s i).lastIsSpeech with _ | _
    · rcases hdet : (VoiceActivityDetector.ingest cfg s i).hasDetectedSpeech
        with _ | _
      · rw [VoiceActivityDetector.classify_quiet cfg _ i hmax hsp hdet,
          Prod.mk.injEq] at h
        obtain ⟨hr, _⟩ := h
        rw [← hr] at hterm
        simp at hterm
      · rw [VoiceActivityDetector.classify_notSpeech cfg _ i hmax hsp hdet] at h
        by_cases hmin : (match (VoiceActivityDetector.ingest cfg s i).speechStartTime with
            | some t => i.now - t
            | none => (0:ℚ)) < cfg.minSpeechDuration
        · rw [if_pos hmin, Prod.mk.injEq] at h
          obtain ⟨hr, _⟩ := h
          rw [← hr] at hterm
          simp at hterm
        · rw [if_neg hmin] at h
          rcases hsil2 : (VoiceActivityDetector.ingest cfg s i).silenceStartTime
              with _ | tsil <;>
            simp only [hsil2] at h <;>
            split at h <;>
            rw [Prod.mk.injEq] at h <;>
            obtain ⟨hr, hs⟩ := h <;>
            rw [← hr] at hterm <;>
            simp at hterm <;>
            (rw [← hs]; simp [VoiceActivityDetector.clearState])
    · rw [VoiceActivityDetector.classify_speech cfg _ i hmax hsp,
        Prod.mk.injEq] at h
      obtain ⟨hr, _⟩ := h
      rw [← hr] at hterm
      simp at hterm

/-- C10 witness: a concrete `end` frame; the returned state equals the
freshly-created state. -/
theorem terminal_clears_state_witness :
    VoiceActivityDetector.processFrame (VoiceActivityDetector.resolveOptions {})
        ⟨[[5]], some 0, some 0, true, some (-300), true, false, true, 0, false⟩
        ⟨[1], 800, 0, false, false⟩ =
      .ok (⟨.ended, 0, false, some [5, 1]⟩, VoiceActivityDetector.initState) ∧
    (VoiceActivityDetector.initState.audioBuffer = [] ∧
     VoiceActivityDetector.initState.recordingStartTime = none ∧
     VoiceActivityDetector.initState.silenceStartTime = none ∧
     VoiceActivityDetector.initState.speechStartTime = none ∧
     VoiceActivityDetector.initState.hasDetectedSpeech = false) := by
  have h : VoiceActivityDetector.processFrame
      (VoiceActivityDetector.resolveOptions {})
      ⟨[[5]], some 0, some 0, true, some (-300), true, false, true, 0, false⟩
      ⟨[1], 800, 0, false, false⟩ =
      .ok (⟨.ended, 0, false, some [5, 1]⟩, VoiceActivityDetector.initState) := by
    norm_num [VoiceActivityDetector.processFrame, VoiceActivityDetector.ingest,
      VoiceActivityDetector.applyEngineCallbacks, VoiceActivityDetector.classify,
      VoiceActivityDetector.clearState, VoiceActivityDetector.getBufferedAudio,
      VoiceActivityDetector.resolveOptions, VoiceActivityDetector.initState]
  exact ⟨h, terminal_clears_state (VoiceActivityDetector.resolveOptions {})
    ⟨[[5]], some 0, some 0, true, some (-300), true, false, true, 0, false⟩
    ⟨[1], 800, 0, false, false⟩ ⟨.ended, 0, false, some [5, 1]⟩
    VoiceActivityDetector.initState h (Or.inl rfl)⟩

namespace VoiceActivityDetector

theorem processTrace_nil (cfg : VADConfig) (s : State) :
    processTrace cfg s [] = some ([], s) := rfl

theorem processTrace_cons (cfg : VADConfig) (s : State) (i : FrameInput)
    (rest : List FrameInput) :
    processTrace cfg s (i :: rest) =
      (processFrame cfg s i).toOption.bind (fun p =>
        (processTrace cfg p.2 rest).map (fun q => (p.1 :: q.1, q.2))) := rfl

theorem processFrame_timeoutExact (cfg : VADConfig) (s : State)
    (i : FrameInput) (t0 : ℚ)
    (hrel : s.isReleased = false) (hready : s.ready = true)
    (heng : s.engineLoaded = true)
    (hrec : s.recordingStartTime = some t0)
    (htime : i.now - t0 > cfg.maxRecordingDuration) :
    processFrame cfg s i =
      .ok (⟨.timeout, i.prob, decide (i.prob > cfg.speechThreshold),
            some ((s.audioBuffer ++ [i.frame]).flatten)⟩,
        { s with
          audioBuffer := []
          silenceStartTime := none
          recordingStartTime := none
          hasDetectedSpeech := false
          speechStartTime := none
          lastProbability := 0
          lastIsSpeech := false }) := by
  rw [processFrame_ok cfg s i hrel hready heng]
  have hmax : i.now - (ingest cfg s i).recordingStartTime.getD i.now >
      cfg.maxRecordingDuration := by
    rw [ingest_recordingStartTime]
    simpa [hrec] using htime
  rw [classify_timeout cfg _ i hmax]
  refine congrArg Except.ok (Prod.ext ?_ ?_)
  · simp [ingest_lastProbability, ingest_lastIsSpeech, getBufferedAudio,
      ingest_audioBuffer]
  · exact State.ext (by simp [clearState]) (by simp [clearState])
      (by simp [clearState]) (by simp [clearState]) (by simp [clearState])
      (by simp [clearState, ingest_engineLoaded])
      (by simp [clearState, ingest_isReleased])
      (by simp [clearState, ingest_ready])
      (by simp [clearState]) (by simp [clearState])

end VoiceActivityDetector

/-- C3: first, whenever the elapsed time since the first frame of the
recording exceeds `maxRecordingDuration`, `processFrame` returns
`timeout` carrying the entire buffered audio (the frames buffered so far
plus the current one), regardless of any speech state; second, the
all-zero scenario: quiet zero-sample frames through a fresh default
segmenter all return `continue` while within the bound, and the first
frame past the bound returns `timeout` with an all-zero buffer of length
`N * frameLength`, leaving the detector in its freshly-created state.
The engine is opaque, so the hypotheses record that it scores the zero
frames below the onset threshold and fires no events for them. -/
theorem timeout_spec :
    (∀ (cfg : VADConfig) (s : VoiceActivityDetector.State)
        (i : VoiceActivityDetector.FrameInput) (t0 : ℚ),
      s.isReleased = false → s.ready = true → s.engineLoaded = true →
      s.recordingStartTime = some t0 →
      i.now - t0 > cfg.maxRecordingDuration →
      VoiceActivityDetector.processFrame cfg s i =
        .ok (⟨.timeout, i.prob, decide (i.prob > cfg.speechThreshold),
              some ((s.audioBuffer ++ [i.frame]).flatten)⟩,
          { s with
            audioBuffer := []
            silenceStartTime := none
            recordingStartTime := none
            hasDetectedSpeech := false
            speechStartTime := none
            lastProbability := 0
            lastIsSpeech := false })) ∧
    (∀ (F : ℕ) (i0 lastI : VoiceActivityDetector.FrameInput)
        (rest : List VoiceActivityDetector.FrameInput),
      (∀ i ∈ i0 :: rest ++ [lastI], i.frame = List.replicate F 0 ∧
        i.prob ≤ (VoiceActivityDetector.resolveOptions {}).speechThreshold ∧
        i.speechStart = false ∧ i.misfire = false) →
      (∀ i ∈ i0 :: rest, ¬(i.now - i0.now >
        (VoiceActivityDetector.resolveOptions {}).maxRecordingDuration)) →
      lastI.now - i0.now >
        (VoiceActivityDetector.resolveOptions {}).maxRecordingDuration →
      VoiceActivityDetector.processTrace (VoiceActivityDetector.resolveOptions {})
          VoiceActivityDetector.initState (i0 :: rest ++ [lastI]) =
        some ((i0 :: rest).map (fun i => ⟨.cont, i.prob, false, none⟩) ++
            [⟨.timeout, lastI.prob, false,
              some (List.replicate ((rest.length + 2) * F) 0)⟩],
          VoiceActivityDetector.initState)) := by
  constructor
  · intro cfg s i t0 hrel hready heng hrec htime
    exact VoiceActivityDetector.processFrame_timeoutExact cfg s i t0 hrel
      hready heng hrec htime
  · intro F i0 lastI rest hall hin hlast
    obtain ⟨hf0, hp0, hss0, hmf0⟩ := hall i0 (List.mem_append_left _ (List.mem_cons_self _ _))
    have h0 : ¬((0:ℚ) >
        (VoiceActivityDetector.resolveOptions {}).maxRecordingDuration) := by
      norm_num [VoiceActivityDetector.resolveOptions]
    rw [VoiceActivityDetector.processTrace_append,
      VoiceActivityDetector.processTrace_cons,
      VoiceActivityDetector.processFrame_quietFirst
        (VoiceActivityDetector.resolveOptions {})
        VoiceActivityDetector.initState i0 rfl rfl rfl rfl rfl rfl
        hp0 hss0 hmf0 h0]
    simp only [Except.toOption, Option.some_bind]
    obtain ⟨p, ils, hrun⟩ :=
      VoiceActivityDetector.processTrace_quietRun
        (VoiceActivityDetector.resolveOptions {}) i0.now rest
        { VoiceActivityDetector.initState with
          audioBuffer := VoiceActivityDetector.initState.audioBuffer ++ [i0.frame]
          recordingStartTime := some i0.now
          lastProbability := i0.prob
          lastIsSpeech := false }
        (by simp [VoiceActivityDetector.initState])
        (by simp [VoiceActivityDetector.initState])
        (by simp [VoiceActivityDetector.initState])
        (by simp [VoiceActivityDetector.initState])
        (by simp [VoiceActivityDetector.initState])
        (by simp)
        (fun j hj =>
          ⟨(hall j (List.mem_append_left _ (List.mem_cons_of_mem i0 hj))).2.1,
           (hall j (List.mem_append_left _ (List.mem_cons_of_mem i0 hj))).2.2.1,
           (hall j (List.mem_append_left _ (List.mem_cons_of_mem i0 hj))).2.2.2,
           hin j (List.mem_cons_of_mem i0 hj)⟩)
    rw [hrun]
    simp only [Option.map_some', Option.some_bind]
    obtain ⟨hfL, hpL, hssL, hmfL⟩ := hall lastI (by simp)
    rw [VoiceActivityDetector.processTrace_cons,
      VoiceActivityDetector.processFrame_timeoutExact
        (VoiceActivityDetector.resolveOptions {}) _ lastI i0.now
        (by simp [VoiceActivityDetector.initState])
        (by simp [VoiceActivityDetector.initState])
        (by simp [VoiceActivityDetector.initState])
        (by simp [VoiceActivityDetector.initState])
        hlast]
    simp only [Except.toOption, Option.some_bind,
      VoiceActivityDetector.processTrace_nil, Option.map_some']
    simp only [Option.some.injEq, Prod.mk.injEq]
    constructor
    · have hdec : decide (lastI.prob >
          (VoiceActivityDetector.resolveOptions {}).speechThreshold) = false :=
        decide_eq_false (not_lt.mpr hpL)
      have hframes : ∀ x ∈ ((VoiceActivityDetector.initState.audioBuffer ++
            [i0.frame]) ++ rest.map (fun j => j.frame)) ++ [lastI.frame],
          x = List.replicate F 0 := by
        intro x hx
        rcases List.mem_append.mp hx with hx1 | hx1
        · rcases List.mem_append.mp hx1 with hx2 | hx2
          · have hx3 : x = i0.frame := by
              simpa [VoiceActivityDetector.initState] using hx2
            rw [hx3]
            exact hf0
          · obtain ⟨j, hj, hfx⟩ := List.mem_map.mp hx2
            rw [← hfx]
            exact (hall j (List.mem_append_left _ (List.mem_cons_of_mem i0 hj))).1
        · have hx3 : x = lastI.frame := by simpa using hx1
          rw [hx3]
          exact hfL
      have haud := EmulatedChannel.flatten_replicate_frames F _ hframes
      have hlen : (((VoiceActivityDetector.initState.audioBuffer ++
            [i0.frame]) ++ rest.map (fun j => j.frame)) ++ [lastI.frame]).length =
          rest.length + 2 := by
        simp [VoiceActivityDetector.initState]
      rw [hlen] at haud
      simp only [List.map_cons, List.cons_append, List.cons.injEq, true_and]
      congr 1
      simp only [List.cons.injEq, and_true, true_and,
        VoiceActivityDetector.Result.mk.injEq]
      exact ⟨hdec, congrArg some haud⟩
    · exact VoiceActivityDetector.State.ext
        (by simp [VoiceActivityDetector.initState])
        (by simp [VoiceActivityDetector.initState])
        (by simp [VoiceActivityDetector.initState])
        (by simp [VoiceActivityDetector.initState])
        (by simp [VoiceActivityDetector.initState])
        (by simp [VoiceActivityDetector.initState])
        (by simp [VoiceActivityDetector.initState])
        (by simp [VoiceActivityDetector.initState])
        (by simp [VoiceActivityDetector.initState])
        (by simp [VoiceActivityDetector.initState])

/-- C3 witness: a concrete over-limit frame, and a concrete two-frame
all-zero scenario. -/
theorem timeout_spec_witness :
    (VoiceActivityDetector.processFrame (VoiceActivityDetector.resolveOptions {})
        { VoiceActivityDetector.initState with
          audioBuffer := [[7]]
          recordingStartTime := some 0 }
        ⟨[8], 30001, 0, false, false⟩ =
      .ok (⟨.timeout, 0,
            decide ((0:ℚ) >
              (VoiceActivityDetector.resolveOptions {}).speechThreshold),
            some [7, 8]⟩,
        VoiceActivityDetector.initState)) ∧
    (VoiceActivityDetector.processTrace (VoiceActivityDetector.resolveOptions {})
        VoiceActivityDetector.initState
        [⟨[0], 0, 0, false, false⟩, ⟨[0], 30001, 0, false, false⟩] =
      some ([⟨.cont, 0, false, none⟩,
          ⟨.timeout, 0, false, some [0, 0]⟩],
        VoiceActivityDetector.initState)) := by
  constructor
  · exact timeout_spec.1 (VoiceActivityDetector.resolveOptions {})
      { VoiceActivityDetector.initState with
        audioBuffer := [[7]]
        recordingStartTime := some 0 }
      ⟨[8], 30001, 0, false, false⟩ 0 rfl rfl rfl rfl
      (by norm_num [VoiceActivityDetector.resolveOptions])
  · exact timeout_spec.2 1 ⟨[0], 0, 0, false, false⟩
      ⟨[0], 30001, 0, false, false⟩ []
      (by
        intro i hi
        simp only [List.mem_append, List.mem_cons, List.not_mem_nil,
          or_false] at hi
        rcases hi with rfl | rfl <;>
          exact ⟨rfl, by norm_num [VoiceActivityDetector.resolveOptions], rfl, rfl⟩)
      (by
        intro i hi
        simp only [List.mem_cons, List.not_mem_nil, or_false] at hi
        subst hi
        norm_num [VoiceActivityDetector.resolveOptions])
      (by norm_num [VoiceActivityDetector.resolveOptions])

/-- C2: one pipeline step of the wake-word detector.  When the mel window
has just reached its 76-frame capacity (after appending this frame's mel
output), exactly one embedding — computed over the full 76-frame window —
is appended to the embedding window, and the mel window slides forward by
exactly 8 frames (keeping the rest).  If the embedding window has reached
depth 16, classification runs over those 16 embeddings and the embedding
window slides by one; a score above the sensitivity returns `true` and
clears both windows, otherwise `processFrame` returns `false`. -/
theorem processFrame_pipeline (o : WakeWordDetector.Oracles)
    (cfg : WakeWordConfig) (s : WakeWordDetector.State) (frame : List ℤ)
    (M E : List (List ℚ))
    (hrel : s.isReleased = false) (hready : s.ready = true)
    (hlen : frame.length = FRAME_LENGTH)
    (hM : M = s.melBuffer ++ WakeWordDetector.computeMelspectrogram o
      (frame.map (fun v => (v : ℚ) / 32768)))
    (hE : E = s.embeddingBuffer ++ [o.embedStage (M.take MEL_BUFFER_SIZE)])
    (hcap : MEL_BUFFER_SIZE ≤ M.length)
    (hone : M.length < MEL_BUFFER_SIZE + EMBEDDING_WINDOW_SLIDE) :
    (E.length < 16 →
      WakeWordDetector.processFrame o cfg s frame =
        .ok (false, { s with
          melBuffer := M.drop EMBEDDING_WINDOW_SLIDE
          embeddingBuffer := E })) ∧
    (16 ≤ E.length →
      o.scoreStage (WakeWordDetector.lastN 16 E) > cfg.sensitivity →
      WakeWordDetector.processFrame o cfg s frame =
        .ok (true, { s with melBuffer := [], embeddingBuffer := [] })) ∧
    (16 ≤ E.length →
      ¬(o.scoreStage (WakeWordDetector.lastN 16 E) > cfg.sensitivity) →
      WakeWordDetector.processFrame o cfg s frame =
        .ok (false, { s with
          melBuffer := M.drop EMBEDDING_WINDOW_SLIDE
          embeddingBuffer := E.drop 1 })) := by
  have hslide : WakeWordDetector.slideLoop o
      (s.melBuffer ++ WakeWordDetector.computeMelspectrogram o
        (frame.map (fun v => (v : ℚ) / 32768)))
      s.embeddingBuffer = (M.drop EMBEDDING_WINDOW_SLIDE, E) := by
    rw [← hM, WakeWordDetector.slideLoop_single o M s.embeddingBuffer hcap hone,
      ← hE]
  have hbody : WakeWordDetector.processFrame o cfg s frame =
      (if 16 ≤ E.length then
        if o.scoreStage (WakeWordDetector.lastN 16 E) > cfg.sensitivity then
          .ok (true, { s with melBuffer := [], embeddingBuffer := [] })
        else
          .ok (false, { s with
            melBuffer := M.drop EMBEDDING_WINDOW_SLIDE
            embeddingBuffer := E.drop 1 })
      else
        .ok (false, { s with
          melBuffer := M.drop EMBEDDING_WINDOW_SLIDE
          embeddingBuffer := E })) := by
    simp only [WakeWordDetector.processFrame, hrel, hready, hlen,
      Bool.not_true, Bool.false_eq_true, if_false, ne_eq, not_true_eq_false]
    rw [hslide]
  refine ⟨?_, ?_, ?_⟩
  · intro h16
    rw [hbody, if_neg (not_le.mpr h16)]
  · intro h16 hscore
    rw [hbody, if_pos h16, if_pos hscore]
  · intro h16 hscore
    rw [hbody, if_pos h16, if_neg hscore]

/-- C2 witness: a zero frame filling the mel window to exactly 76 frames
with constant oracles; one embedding is produced and the mel window
slides by 8. -/
theorem processFrame_pipeline_witness :
    (WakeWordDetector.initState.isReleased = false ∧
     WakeWordDetector.initState.ready = true ∧
     zeroFrame1280.length = FRAME_LENGTH ∧
     MEL_BUFFER_SIZE ≤ (WakeWordDetector.initState.melBuffer ++
        WakeWordDetector.computeMelspectrogram constOracles
          (zeroFrame1280.map (fun v => (v : ℚ) / 32768))).length ∧
     (WakeWordDetector.initState.melBuffer ++
        WakeWordDetector.computeMelspectrogram constOracles
          (zeroFrame1280.map (fun v => (v : ℚ) / 32768))).length <
        MEL_BUFFER_SIZE + EMBEDDING_WINDOW_SLIDE ∧
     (WakeWordDetector.initState.embeddingBuffer ++
        [constOracles.embedStage
          ((WakeWordDetector.initState.melBuffer ++
            WakeWordDetector.computeMelspectrogram constOracles
              (zeroFrame1280.map (fun v => (v : ℚ) / 32768))).take
            MEL_BUFFER_SIZE)]).length < 16) ∧
    WakeWordDetector.processFrame constOracles ⟨"models", "hey_jarvis", 1/2⟩
        WakeWordDetector.initState zeroFrame1280 =
      .ok (false, { WakeWordDetector.initState with
        melBuffer := (WakeWordDetector.initState.melBuffer ++
          WakeWordDetector.computeMelspectrogram constOracles
            (zeroFrame1280.map (fun v => (v : ℚ) / 32768))).drop
          EMBEDDING_WINDOW_SLIDE
        embeddingBuffer := WakeWordDetector.initState.embeddingBuffer ++
          [constOracles.embedStage
            ((WakeWordDetector.initState.melBuffer ++
              WakeWordDetector.computeMelspectrogram constOracles
                (zeroFrame1280.map (fun v => (v : ℚ) / 32768))).take
              MEL_BUFFER_SIZE)] }) := by
  have hc : ∀ xs : List ℚ,
      (WakeWordDetector.computeMelspectrogram constOracles xs).length = 76 := by
    intro xs
    simp only [WakeWordDetector.computeMelspectrogram, constOracles,
      List.length_map, List.length_range, List.length_replicate]
  have hmlen : (WakeWordDetector.initState.melBuffer ++
      WakeWordDetector.computeMelspectrogram constOracles
        (zeroFrame1280.map (fun v => (v : ℚ) / 32768))).length = 76 := by
    simp only [List.length_append, hc, WakeWordDetector.initState,
      List.length_nil, Nat.zero_add]
  have helen : (WakeWordDetector.initState.embeddingBuffer ++
      [constOracles.embedStage
        ((WakeWordDetector.initState.melBuffer ++
          WakeWordDetector.computeMelspectrogram constOracles
            (zeroFrame1280.map (fun v => (v : ℚ) / 32768))).take
          MEL_BUFFER_SIZE)]).length = 1 := by
    simp [WakeWordDetector.initState]
  refine ⟨⟨rfl, rfl,
    by simp only [zeroFrame1280, List.length_replicate, FRAME_LENGTH],
    by rw [hmlen]; norm_num [MEL_BUFFER_SIZE],
    by rw [hmlen]; norm_num [MEL_BUFFER_SIZE, EMBEDDING_WINDOW_SLIDE],
    by rw [helen]; norm_num⟩, ?_⟩
  exact (processFrame_pipeline constOracles ⟨"models", "hey_jarvis", 1/2⟩
    WakeWordDetector.initState zeroFrame1280 _ _ rfl rfl
    (by simp only [zeroFrame1280, List.length_replicate, FRAME_LENGTH]) rfl rfl
    (by rw [hmlen]; norm_num [MEL_BUFFER_SIZE])
    (by rw [hmlen]; norm_num [MEL_BUFFER_SIZE, EMBEDDING_WINDOW_SLIDE])).1
    (by rw [helen]; norm_num)
